import Mathlib

/-! go-mod-bootstrap: common REST controller and configuration-provider info

A shallow embedding of `bootstrap/utils/commonapi.go` (the `CommonController`, its two
handlers and `sendResponse`) together with the part of `net/http` and `gorilla/mux` the
controller drives, and of the provider-info parser exercised by
`bootstrap/config/provider_test.go`.

Handlers are pure functions: they take the response writer and the request and return the
writer after the call together with the log entries the call emitted.
-/

namespace Bootstrap

/-! ## Constants of `net/http` and of the core-contracts `common` package -/

/-- The `http.MethodGet` constant. -/
def MethodGet : String := "GET"

/-- The `http.StatusOK` constant. -/
def StatusOK : Int := 200

/-- The `http.StatusInternalServerError` constant. -/
def StatusInternalServerError : Int := 500

/-- The `common.CorrelationHeader` constant: name of the request-tracing header. -/
def CorrelationHeader : String := "X-Correlation-ID"

/-- The `common.ContentType` constant. -/
def ContentType : String := "Content-Type"

/-- The `common.ContentTypeJSON` constant. -/
def ContentTypeJSON : String := "application/json"

/-- The `common.ApiPingRoute` constant of the v3 contracts. -/
def ApiPingRoute : String := "/api/v3/ping"

/-- The `common.ApiVersionRoute` constant of the v3 contracts. -/
def ApiVersionRoute : String := "/api/v3/version"

/-! ## `net/http`: headers, requests, response writer -/

/-- An `http.Header`: a map from header names to their values, kept as an association
list.  Keys stand for canonical header names: `Get` and `Set` canonicalise their key in
the same way, so on canonical keys they are plain map operations. -/
structure Header where
  entries : List (String × List String)
  deriving DecidableEq, Repr

/-- The method `Header.Get`: the first value stored under the key, the empty string when
there is none. -/
def Header.Get (h : Header) (key : String) : String :=
  match h.entries.lookup key with
  | some (v :: _) => v
  | _ => ""

/-- The method `Header.Set`: replaces whatever is stored under the key by the single
value. -/
def Header.Set (h : Header) (key value : String) : Header :=
  ⟨(key, [value]) :: h.entries.filter (fun kv => kv.1 != key)⟩

/-- An `http.Request`, reduced to what routing and the handlers read. -/
structure Request where
  method : String
  path : String
  header : Header
  deriving DecidableEq, Repr

/-- One call made on an `http.ResponseWriter`, in the order of the calls. -/
inductive WriterCall where
  | headerSet (key value : String)
  | writeHeader (statusCode : Int)
  | write (data : String)
  deriving DecidableEq, Repr

/-- The `http.ErrBodyNotAllowed` error text. -/
def ErrBodyNotAllowed : String :=
  "http: request method or response status code does not allow body"

/-- The function `checkWriteHeaderCode` of `net/http`: `WriteHeader` panics on a code
below 100 or above 999; `true` means the code passes. -/
def checkWriteHeaderCode (code : Int) : Bool :=
  !(decide (code < 100) || decide (code > 999))

/-- Whether `WriteHeader` treats the code as informational: 100 to 199, except 101
(Switching Protocols), which takes the path of a final status. -/
def isInformational (code : Int) : Bool :=
  decide (code ≥ 100) && decide (code ≤ 199) && decide (code ≠ 101)

/-- The function `bodyAllowedForStatus` of `net/http`. -/
def bodyAllowedForStatus (status : Int) : Bool :=
  if status ≥ 100 ∧ status ≤ 199 then false
  else if status = 204 then false
  else if status = 304 then false
  else true

/-- An `http.ResponseWriter` as the server implements it (the `response` type of
`net/http`).

* `header` is the live map returned by `Header()`;
* `wroteHeader`, `status`, `sentHeader` describe the final response head once it is
  committed: only the first `WriteHeader` with a final status code (or the first `Write`,
  which implies `WriteHeader(200)`) commits it, later changes of `header` and later
  `WriteHeader` calls do not reach the client;
* `interim` lists the informational (1xx) heads sent before the final head;
* `body` lists the chunks delivered to the client, one per successful `Write`; for a HEAD
  request the server accepts the writes and delivers none of them;
* `writeErrors` is the environment: the outcome of the coming `Write` calls on the
  connection in order (`some e` is a failing write with error text `e`), writes past the
  list succeed;
* `reqMethod` is the method of the request the writer answers;
* `panicked` tells that a call on the writer panicked: the handler is unwound, the server
  drops the connection and the client receives no response;
* `calls` records every call made on the writer. -/
structure ResponseWriter where
  header : Header
  wroteHeader : Bool
  status : Int
  sentHeader : Header
  interim : List Int
  body : List String
  writeErrors : List (Option String)
  reqMethod : String
  panicked : Bool
  calls : List WriterCall
  deriving DecidableEq, Repr

/-- Commits the final response head unless it is committed already. -/
def ResponseWriter.commit (w : ResponseWriter) (statusCode : Int) : ResponseWriter :=
  if w.wroteHeader then w
  else { w with wroteHeader := true, status := statusCode, sentHeader := w.header }

/-- The call `w.Header().Set(key, value)`. -/
def ResponseWriter.HeaderSet (w : ResponseWriter) (key value : String) : ResponseWriter :=
  { w with header := w.header.Set key value, calls := w.calls ++ [.headerSet key value] }

/-- The call `w.WriteHeader(statusCode)`; `.error` is a panic, with the writer as the
panic leaves it.  In the order of `net/http`: a call after the head is committed is
superfluous and is ignored; otherwise a code outside 100..999 panics; an informational
code is sent as an interim head and commits nothing; any other code commits the head. -/
def ResponseWriter.WriteHeader (w : ResponseWriter) (statusCode : Int) :
    Except ResponseWriter ResponseWriter :=
  let w : ResponseWriter := { w with calls := w.calls ++ [.writeHeader statusCode] }
  if w.wroteHeader then .ok w
  else if !checkWriteHeaderCode statusCode then .error { w with panicked := true }
  else if isInformational statusCode then .ok { w with interim := w.interim ++ [statusCode] }
  else .ok (w.commit statusCode)

/-- The data reaches the client, unless the request is a HEAD request. -/
def ResponseWriter.deliver (w : ResponseWriter) (data : String) : ResponseWriter :=
  if w.reqMethod = "HEAD" then w else { w with body := w.body ++ [data] }

/-- The call `w.Write(data)`, returning the error, if any.  In the order of `net/http`:
the head is committed with status 200 when nothing committed it; an empty write succeeds
at once; a status that allows no body refuses the write; otherwise the data is delivered
or the write fails as the environment decides. -/
def ResponseWriter.Write (w : ResponseWriter) (data : String) :
    ResponseWriter × Option String :=
  let w := ({ w with calls := w.calls ++ [.write data] } : ResponseWriter).commit StatusOK
  if data = "" then (w.deliver data, none)
  else if !bodyAllowedForStatus w.status then (w, some ErrBodyNotAllowed)
  else
    match w.writeErrors with
    | [] => (w.deliver data, none)
    | none :: rest => ({ w.deliver data with writeErrors := rest }, none)
    | some err :: rest => ({ w with writeErrors := rest }, some err)

/-- A writer as a handler first sees it when nothing ran before the handler, answering a
GET request. -/
def ResponseWriter.fresh (writeErrors : List (Option String)) : ResponseWriter :=
  { header := ⟨[]⟩, wroteHeader := false, status := 0, sentHeader := ⟨[]⟩, interim := [],
    body := [], writeErrors := writeErrors, reqMethod := "GET", panicked := false,
    calls := [] }

/-- The function `http.Error` of the Go releases the module builds with: sets the
plain-text headers, writes the status code and prints the error text followed by a
newline. -/
def http.Error (w : ResponseWriter) (error : String) (code : Int) : ResponseWriter :=
  let w := w.HeaderSet "Content-Type" "text/plain; charset=utf-8"
  let w := w.HeaderSet "X-Content-Type-Options" "nosniff"
  match w.WriteHeader code with
  | .error w => w
  | .ok w => (w.Write (error ++ "\n")).1

/-! ## Logging and the dependency container -/

/-- A `logger.LoggingClient`, known by its identity. -/
structure LoggingClient where
  id : Nat
  deriving DecidableEq, Repr

/-- One entry emitted through a logging client. -/
structure LogEntry where
  client : LoggingClient
  level : String
  msg : String
  args : List String
  deriving DecidableEq, Repr

/-- The call `lc.Error(msg, args...)`. -/
def LoggingClient.Error (lc : LoggingClient) (msg : String) (args : List String) : LogEntry :=
  { client := lc, level := "ERROR", msg := msg, args := args }

/-- Modelled from the spec: the secret provider handed to the authentication hook
(`interfaces.SecretProviderExt`, not among the sources), known by its identity. -/
structure SecretProviderExt where
  id : Nat
  deriving DecidableEq, Repr

/-- Modelled from the spec: a custom configuration (`interfaces.UpdatableConfig`, not
among the sources), known by its identity. -/
structure UpdatableConfig where
  id : Nat
  deriving DecidableEq, Repr

/-- Modelled from the spec: the shared infrastructure the controller keeps a reference to
(`di.Container`, not among the sources), reduced to the two services this file resolves
from it. -/
structure Container where
  loggingClient : LoggingClient
  secretProvider : SecretProviderExt
  deriving DecidableEq, Repr

/-- Modelled from the spec: the function `container.LoggingClientFrom` (not among the
sources), which resolves the logging client of the container. -/
def LoggingClientFrom (dic : Container) : LoggingClient := dic.loggingClient

/-- Modelled from the spec: the function `container.SecretProviderExtFrom` (not among the
sources), which resolves the secret provider of the container. -/
def SecretProviderExtFrom (dic : Container) : SecretProviderExt := dic.secretProvider

/-! ## `gorilla/mux` -/

/-- An `http.HandlerFunc`: the writer after the call and the log entries emitted. -/
abbrev HandlerFunc := ResponseWriter → Request → ResponseWriter × List LogEntry

/-- A `mux.Route`: a path, the methods it is restricted to, and its handler. -/
structure Route where
  path : String
  methods : List String
  handler : HandlerFunc

/-- A `mux.Router`: its identity (the controller keeps a pointer to it) and its routes in
registration order. -/
structure Router where
  addr : Nat
  routes : List Route

/-- The chain `r.HandleFunc(path, f).Methods(method)`. -/
def Router.HandleFunc (r : Router) (path : String) (f : HandlerFunc) (method : String) :
    Router :=
  { r with routes := r.routes ++ [{ path := path, methods := [method], handler := f }] }

/-- Whether a route matches a request: same path, and a method of the route. -/
def Route.matches (rt : Route) (req : Request) : Bool :=
  rt.path == req.path && rt.methods.contains req.method

/-- The handler `mux.Router.Match` selects: that of the first matching route. -/
def Router.Match (r : Router) (req : Request) : Option HandlerFunc :=
  (r.routes.find? (fun rt => rt.matches req)).map (fun rt => rt.handler)

/-! ## Response payloads -/

/-- The payloads the handlers build, each recorded as the `commonDTO` constructor call
that builds it. -/
inductive Payload where
  | NewPingResponse (serviceName : String)
  | NewVersionResponse (version serviceName : String)
  | NewVersionSdkResponse (version sdkVersion serviceName : String)
  deriving DecidableEq, Repr

/-! ## The controller -/

/-- The `version` struct. -/
structure version where
  serviceVersion : String
  sdkVersion : String
  deriving DecidableEq, Repr

/-- The `CommonController` struct; `router` is the address of the router. -/
structure CommonController where
  serviceName : String
  router : Nat
  version : version
  customConfig : Option UpdatableConfig
  lc : LoggingClient
  dic : Container
  deriving DecidableEq, Repr

/-- The function `NewCommonController`: the fields it does not name keep their zero
values. -/
def NewCommonController (r : Router) (dic : Container) (serviceName : String) :
    CommonController :=
  let lc := LoggingClientFrom dic
  { serviceName := serviceName, router := r.addr, version := ⟨"", ""⟩, customConfig := none,
    lc := lc, dic := dic }

/-- The method `SetVersion`. -/
def CommonController.SetVersion (c : CommonController) (serviceVersion sdkVersion : String) :
    CommonController :=
  let c := { c with version := { c.version with serviceVersion := serviceVersion } }
  { c with version := { c.version with sdkVersion := sdkVersion } }

/-- The method `SetCustomConfigInfo`. -/
def CommonController.SetCustomConfigInfo (c : CommonController)
    (customConfig : Option UpdatableConfig) : CommonController :=
  { c with customConfig := customConfig }

/-- The method `sendResponse`; `marshal` is `json.Marshal` on the payload type, returning
the bytes or the error text, and `response = none` is the nil payload.  A panic inside
`WriteHeader` unwinds the method: nothing after the call runs. -/
def CommonController.sendResponse {α : Type} (c : CommonController)
    (marshal : α → Except String String) (writer : ResponseWriter) (request : Request)
    (api : String) (response : Option α) (statusCode : Int) :
    ResponseWriter × List LogEntry :=
  let correlationID := request.header.Get CorrelationHeader
  let writer := writer.HeaderSet CorrelationHeader correlationID
  let writer := writer.HeaderSet ContentType ContentTypeJSON
  match writer.WriteHeader statusCode with
  | .error writer => (writer, [])
  | .ok writer =>
    match response with
    | none => (writer, [])
    | some response =>
      match marshal response with
      | .error err =>
        (http.Error writer err StatusInternalServerError,
          [c.lc.Error ("Unable to marshal " ++ api ++ " response")
            ["error", err, CorrelationHeader, correlationID]])
      | .ok data =>
        match writer.Write data with
        | (writer, some err) =>
          (http.Error writer err StatusInternalServerError,
            [c.lc.Error ("Unable to write " ++ api ++ " response")
              ["error", err, CorrelationHeader, correlationID]])
        | (writer, none) => (writer, [])

/-- The handler `Ping`. -/
def CommonController.Ping (c : CommonController) (marshal : Payload → Except String String) :
    HandlerFunc := fun writer request =>
  let response := Payload.NewPingResponse c.serviceName
  c.sendResponse marshal writer request ApiPingRoute (some response) StatusOK

/-- The handler `Version`. -/
def CommonController.Version (c : CommonController)
    (marshal : Payload → Except String String) : HandlerFunc := fun writer request =>
  let response :=
    if c.version.sdkVersion != "" then
      Payload.NewVersionSdkResponse c.version.serviceVersion c.version.sdkVersion c.serviceName
    else
      Payload.NewVersionResponse c.version.serviceVersion c.serviceName
  c.sendResponse marshal writer request ApiVersionRoute (some response) StatusOK

/-- The function `LoadCommonRoutes`; `AutoConfigAuthenticationFunc` is the function of
that name of the `handlers` package, which builds the authentication hook from the secret
provider and the logging client. -/
def LoadCommonRoutes
    (AutoConfigAuthenticationFunc : SecretProviderExt → LoggingClient → HandlerFunc → HandlerFunc)
    (marshal : Payload → Except String String)
    (r : Router) (dic : Container) (serviceName : String) : Router :=
  let c := NewCommonController r dic serviceName
  let secretProvider := SecretProviderExtFrom dic
  let authenticationHook := AutoConfigAuthenticationFunc secretProvider c.lc
  let r := r.HandleFunc ApiPingRoute (c.Ping marshal) MethodGet
  r.HandleFunc ApiVersionRoute (authenticationHook (c.Version marshal)) MethodGet

/-! ## Configuration-provider info -/

/-- The `envKeyConfigUrl` constant of the provider tests: name of the override variable. -/
def envKeyConfigUrl : String := "EDGEX_CONFIGURATION_PROVIDER"

/-- The `goodUrlValue` constant of the provider tests. -/
def goodUrlValue : String := "consul.http://localhost:8500"

/-- The `badUrlValue` constant of the provider tests. -/
def badUrlValue : String := "Not a url"

/-- Modelled from the spec: the provider descriptor `{Type, Protocol, Host, Port}` that
`ServiceConfig()` returns, whose declaration is not among the sources (`Type_` stands for
the field `Type`). -/
structure ServiceConfig where
  Type_ : String
  Protocol : String
  Host : String
  Port : Nat
  deriving DecidableEq, Repr

/-- Modelled from the spec: the `ProviderInfo` value `NewProviderInfo` returns, whose
declaration is not among the sources. -/
structure ProviderInfo where
  serviceConfig : ServiceConfig
  deriving DecidableEq, Repr

/-- Modelled from the spec: the accessor `ServiceConfig()` of `ProviderInfo`, not among
the sources. -/
def ProviderInfo.ServiceConfig (p : ProviderInfo) : ServiceConfig := p.serviceConfig

/-- Modelled from the spec: the environment-variable lookup capability
(`environment.Variables`, not among the sources); an unset variable reads as the empty
string. -/
structure Variables where
  getenv : String → String

/-- Modelled from the spec: splitting on the first occurrence of a separator (used for
"split on the first `.`" and for the `:` of scheme and port); `none` when the separator
does not occur. -/
def splitAtFirst (sep : Char) : List Char → Option (List Char × List Char)
  | [] => none
  | c :: cs =>
    if c = sep then some ([], cs)
    else
      match splitAtFirst sep cs with
      | none => none
      | some (before, after) => some (c :: before, after)

/-- Modelled from the spec: the value of a decimal digit character. -/
def digitValue (c : Char) : Nat := c.toNat - 48

/-- Modelled from the spec: the "numeric port": a non-empty run of decimal digits, read
in base ten; anything else is no port. -/
def parsePort (port : List Char) : Option Nat :=
  match port with
  | [] => none
  | _ :: _ =>
    if port.all Char.isDigit then some (port.foldl (fun acc c => 10 * acc + digitValue c) 0)
    else none

/-- Modelled from the spec: parsing of the provider string as `scheme://host:port`, the
scheme being `type.protocol` split on the first `.` (the parser itself is not among the
sources).  The scheme ends at the first `:`, which `//` must follow; the host ends at the
next `:`, and the rest must be a numeric port.  Every other string is a parse error. -/
def parseProviderUrl (providerUrl : String) : Except String ServiceConfig :=
  match splitAtFirst ':' providerUrl.data with
  | none => .error ("the format of Provider URL is incorrect: " ++ providerUrl)
  | some (scheme, rest) =>
    match rest with
    | '/' :: '/' :: hostport =>
      match splitAtFirst '.' scheme with
      | none => .error ("the Type and Protocol of Provider URL are incorrect: " ++ providerUrl)
      | some (type, protocol) =>
        match splitAtFirst ':' hostport with
        | none => .error ("the port of Provider URL is incorrect: " ++ providerUrl)
        | some (host, port) =>
          match parsePort port with
          | none => .error ("the port of Provider URL is incorrect: " ++ providerUrl)
          | some portNumber =>
            .ok { Type_ := String.mk type, Protocol := String.mk protocol,
                  Host := String.mk host, Port := portNumber }
    | _ => .error ("the format of Provider URL is incorrect: " ++ providerUrl)

/-- Modelled from the spec: the string `NewProviderInfo` parses; a set (non-empty)
override variable replaces the argument entirely. -/
def effectiveUrl (envVars : Variables) (providerUrl : String) : String :=
  let envUrl := envVars.getenv envKeyConfigUrl
  if envUrl != "" then envUrl else providerUrl

/-- Modelled from the spec: the function `NewProviderInfo`, of which only the tests are
among the sources (the logging client the tests pass is left out, no claim reads the
log): resolve the override, parse, and return the descriptor or the parse error. -/
def NewProviderInfo (envVars : Variables) (providerUrl : String) :
    Except String ProviderInfo :=
  match parseProviderUrl (effectiveUrl envVars providerUrl) with
  | .error err => .error err
  | .ok serviceConfig => .ok { serviceConfig := serviceConfig }

/-- The environment in which no variable is set. -/
def Variables.unset : Variables := { getenv := fun _ => "" }

/-- The environment in which only the override variable is set. -/
def Variables.override (value : String) : Variables :=
  { getenv := fun key => if key = envKeyConfigUrl then value else "" }

/-! ## Auxiliary definitions used to state the properties -/

/-- The writer on which `sendResponse` marshals and writes when the status code is a
final one: the two headers set, the `WriteHeader` call made and the head committed. -/
def prepared (writer : ResponseWriter) (request : Request) (statusCode : Int) :
    ResponseWriter :=
  let writer := (writer.HeaderSet CorrelationHeader
    (request.header.Get CorrelationHeader)).HeaderSet ContentType ContentTypeJSON
  ({ writer with calls := writer.calls ++ [.writeHeader statusCode] } :
    ResponseWriter).commit statusCode

/-- One call of a setter of the controller. -/
inductive SetterCall where
  | SetVersion (serviceVersion sdkVersion : String)
  | SetCustomConfigInfo (customConfig : Option UpdatableConfig)
  deriving DecidableEq, Repr

/-- The controller after one setter call. -/
def CommonController.call (c : CommonController) : SetterCall → CommonController
  | .SetVersion serviceVersion sdkVersion => c.SetVersion serviceVersion sdkVersion
  | .SetCustomConfigInfo customConfig => c.SetCustomConfigInfo customConfig

/-- The controller after a sequence of setter calls, made in order. -/
def CommonController.callAll (c : CommonController) (calls : List SetterCall) :
    CommonController :=
  calls.foldl CommonController.call c

/-- A stand-in for `json.Marshal` on the payloads, used in worked examples: every
payload marshals. -/
def sampleMarshal : Payload → Except String String
  | .NewPingResponse serviceName => .ok ("ping " ++ serviceName)
  | .NewVersionResponse version serviceName => .ok ("version " ++ version ++ " " ++ serviceName)
  | .NewVersionSdkResponse version sdkVersion serviceName =>
    .ok ("version " ++ version ++ " sdk " ++ sdkVersion ++ " " ++ serviceName)

/-- A `json.Marshal` that fails on every payload, used in worked examples. -/
def failingMarshal : Payload → Except String String :=
  fun _ => .error "json: unsupported value"

/-- A container used in worked examples. -/
def sampleContainer : Container := { loggingClient := ⟨1⟩, secretProvider := ⟨2⟩ }

/-- A router without routes, used in worked examples. -/
def emptyRouter : Router := { addr := 7, routes := [] }

/-- A controller for the service `core-data`, used in worked examples. -/
def sampleController : CommonController :=
  NewCommonController emptyRouter sampleContainer "core-data"

/-- A GET request to the ping route carrying a correlation ID and a bearer token. -/
def sampleRequest : Request :=
  { method := "GET", path := "/api/v3/ping",
    header := ⟨[("X-Correlation-ID", ["abc-123"]), ("Authorization", ["Bearer token"])]⟩ }

/-- A GET request to the version route without any header. -/
def bareVersionRequest : Request :=
  { method := "GET", path := "/api/v3/version", header := ⟨[]⟩ }

/-- A writer answering a HEAD request, nothing having run before the handler. -/
def headWriter : ResponseWriter := { ResponseWriter.fresh [] with reqMethod := "HEAD" }

/-- A HEAD request to the ping route carrying a correlation ID. -/
def headRequest : Request :=
  { method := "HEAD", path := "/api/v3/ping", header := ⟨[("X-Correlation-ID", ["abc-123"])]⟩ }

/-- A handler that answers 401 and never runs anything else. -/
def unauthorized : HandlerFunc := fun writer _ =>
  match writer.WriteHeader 401 with
  | .ok writer => (writer, [])
  | .error writer => (writer, [])

/-- An authentication hook that rejects every request. -/
def rejectAll : SecretProviderExt → LoggingClient → HandlerFunc → HandlerFunc :=
  fun _ _ _ => unauthorized

/-- An authentication hook that passes every request through. -/
def passThrough : SecretProviderExt → LoggingClient → HandlerFunc → HandlerFunc :=
  fun _ _ inner => inner

/-! ## Header and writer lemmas -/

theorem Header.Get_Set_same (h : Header) (key value : String) :
    (h.Set key value).Get key = value := by
  simp [Header.Get, Header.Set, List.lookup]

theorem Header.lookup_filter_ne (entries : List (String × List String)) (key other : String)
    (hne : key ≠ other) :
    (entries.filter (fun kv => kv.1 != other)).lookup key = entries.lookup key := by
  induction entries with
  | nil => rfl
  | cons kv rest ih =>
    obtain ⟨k, v⟩ := kv
    by_cases hk : k = other
    · subst hk
      have hkey : (key == k) = false := by simpa using hne
      simp [List.filter, List.lookup, hkey, ih]
    · have hk2 : (k != other) = true := by simpa using hk
      simp only [List.filter, hk2, List.lookup, ih]

theorem Header.Get_Set_other (h : Header) (key other value : String) (hne : key ≠ other) :
    (h.Set other value).Get key = h.Get key := by
  have hkey : (key == other) = false := by simpa using hne
  simp [Header.Get, Header.Set, List.lookup, hkey, Header.lookup_filter_ne _ _ _ hne]

theorem final_of_range (code : Int) (hlo : 200 ≤ code) (hhi : code ≤ 999) :
    checkWriteHeaderCode code = true ∧ isInformational code = false := by
  constructor
  · simp only [checkWriteHeaderCode, Bool.not_eq_true', Bool.or_eq_false_iff,
      decide_eq_false_iff_not]
    omega
  · simp only [isInformational, Bool.and_eq_false_iff, decide_eq_false_iff_not]
    left; right; omega

/-- On a final status code, or when the head is committed already, the `WriteHeader` call
of `sendResponse` returns, leaving the writer `prepared` describes. -/
theorem WriteHeader_prepared (writer : ResponseWriter) (request : Request) (statusCode : Int)
    (h : writer.wroteHeader = true ∨
      (checkWriteHeaderCode statusCode = true ∧ isInformational statusCode = false)) :
    ((writer.HeaderSet CorrelationHeader (request.header.Get CorrelationHeader)).HeaderSet
      ContentType ContentTypeJSON).WriteHeader statusCode =
      .ok (prepared writer request statusCode) := by
  rcases h with h | ⟨h1, h2⟩
  · simp [ResponseWriter.WriteHeader, prepared, ResponseWriter.HeaderSet,
      ResponseWriter.commit, h]
  · cases hw : writer.wroteHeader <;>
      simp [ResponseWriter.WriteHeader, prepared, ResponseWriter.HeaderSet,
        ResponseWriter.commit, hw, h1, h2]

theorem prepared_wroteHeader (writer : ResponseWriter) (request : Request) (statusCode : Int) :
    (prepared writer request statusCode).wroteHeader = true := by
  cases h : writer.wroteHeader <;>
    simp [prepared, ResponseWriter.HeaderSet, ResponseWriter.commit, h]

theorem prepared_status (writer : ResponseWriter) (request : Request) (statusCode : Int)
    (hfresh : writer.wroteHeader = false) :
    (prepared writer request statusCode).status = statusCode := by
  simp [prepared, ResponseWriter.HeaderSet, ResponseWriter.commit, hfresh]

theorem prepared_calls (writer : ResponseWriter) (request : Request) (statusCode : Int) :
    (prepared writer request statusCode).calls = writer.calls ++
      [.headerSet CorrelationHeader (request.header.Get CorrelationHeader),
       .headerSet ContentType ContentTypeJSON, .writeHeader statusCode] := by
  cases h : writer.wroteHeader <;>
    simp [prepared, ResponseWriter.HeaderSet, ResponseWriter.commit, h]

theorem prepared_frame (writer : ResponseWriter) (request : Request) (statusCode : Int) :
    (prepared writer request statusCode).body = writer.body ∧
      (prepared writer request statusCode).writeErrors = writer.writeErrors ∧
      (prepared writer request statusCode).reqMethod = writer.reqMethod ∧
      (prepared writer request statusCode).interim = writer.interim ∧
      (prepared writer request statusCode).panicked = writer.panicked := by
  cases h : writer.wroteHeader <;>
    simp [prepared, ResponseWriter.HeaderSet, ResponseWriter.commit, h]

theorem prepared_sentHeader (writer : ResponseWriter) (request : Request) (statusCode : Int)
    (hfresh : writer.wroteHeader = false) :
    (prepared writer request statusCode).sentHeader =
      (writer.header.Set CorrelationHeader (request.header.Get CorrelationHeader)).Set
        ContentType ContentTypeJSON := by
  simp [prepared, ResponseWriter.HeaderSet, ResponseWriter.commit, hfresh]

/-- A `Write` on a committed head changes neither the status nor the headers sent, and
its call is recorded after the earlier calls. -/
theorem Write_committed (w : ResponseWriter) (data : String) (h : w.wroteHeader = true) :
    (w.Write data).1.status = w.status ∧ (w.Write data).1.sentHeader = w.sentHeader ∧
      (w.Write data).1.wroteHeader = true ∧ (w.Write data).1.calls = w.calls ++ [.write data] ∧
      (w.Write data).1.interim = w.interim ∧ (w.Write data).1.panicked = w.panicked := by
  by_cases hd : data = ""
  · by_cases hm : w.reqMethod = "HEAD" <;>
      simp [ResponseWriter.Write, ResponseWriter.commit, ResponseWriter.deliver, h, hd, hm]
  · by_cases hb : bodyAllowedForStatus w.status = true
    · by_cases hm : w.reqMethod = "HEAD" <;>
        rcases hw : w.writeErrors with _ | ⟨_ | err, rest⟩ <;>
        simp [ResponseWriter.Write, ResponseWriter.commit, ResponseWriter.deliver, h, hd, hm,
          hb, hw]
    · simp [ResponseWriter.Write, ResponseWriter.commit, h, hd, hb]

/-- A `Write` on a committed head whose status allows a body succeeds when the
environment lets it, and delivers the data unless the request is a HEAD request. -/
theorem Write_success (w : ResponseWriter) (data : String) (h : w.wroteHeader = true)
    (hb : bodyAllowedForStatus w.status = true)
    (hok : ∀ err, w.writeErrors.head? ≠ some (some err)) :
    (w.Write data).2 = none ∧
      (w.reqMethod ≠ "HEAD" → (w.Write data).1.body = w.body ++ [data]) := by
  by_cases hd : data = ""
  · by_cases hm : w.reqMethod = "HEAD" <;>
      simp [ResponseWriter.Write, ResponseWriter.commit, ResponseWriter.deliver, h, hd, hm]
  · rcases hw : w.writeErrors with _ | ⟨_ | err, rest⟩
    · by_cases hm : w.reqMethod = "HEAD" <;>
        simp [ResponseWriter.Write, ResponseWriter.commit, ResponseWriter.deliver, h, hd, hm,
          hb, hw]
    · by_cases hm : w.reqMethod = "HEAD" <;>
        simp [ResponseWriter.Write, ResponseWriter.commit, ResponseWriter.deliver, h, hd, hm,
          hb, hw]
    · exact absurd (by simp [hw]) (hok err)

/-- The function `http.Error` on a committed head changes neither the status nor the
headers sent: its `WriteHeader` is superfluous. -/
theorem Error_committed (w : ResponseWriter) (err : String) (code : Int)
    (h : w.wroteHeader = true) :
    (http.Error w err code).status = w.status ∧
      (http.Error w err code).sentHeader = w.sentHeader ∧
      (http.Error w err code).wroteHeader = true := by
  have hwh : ((w.HeaderSet "Content-Type" "text/plain; charset=utf-8").HeaderSet
      "X-Content-Type-Options" "nosniff").WriteHeader code =
      .ok { (w.HeaderSet "Content-Type" "text/plain; charset=utf-8").HeaderSet
        "X-Content-Type-Options" "nosniff" with
        calls := ((w.HeaderSet "Content-Type" "text/plain; charset=utf-8").HeaderSet
          "X-Content-Type-Options" "nosniff").calls ++ [.writeHeader code] } := by
    simp [ResponseWriter.WriteHeader, ResponseWriter.HeaderSet, h]
  simp only [http.Error, hwh]
  obtain ⟨b1, b2, b3, -⟩ := Write_committed
    { (w.HeaderSet "Content-Type" "text/plain; charset=utf-8").HeaderSet
        "X-Content-Type-Options" "nosniff" with
      calls := ((w.HeaderSet "Content-Type" "text/plain; charset=utf-8").HeaderSet
        "X-Content-Type-Options" "nosniff").calls ++ [.writeHeader code] }
    (err ++ "\n") (by simpa [ResponseWriter.HeaderSet] using h)
  exact ⟨b1, b2, b3⟩

/-- The method `sendResponse` on a non-nil payload, once its `WriteHeader` call returned
the `prepared` writer. -/
theorem sendResponse_prepared {α : Type} (c : CommonController)
    (marshal : α → Except String String) (writer : ResponseWriter) (request : Request)
    (api : String) (response : α) (statusCode : Int)
    (h : writer.wroteHeader = true ∨
      (checkWriteHeaderCode statusCode = true ∧ isInformational statusCode = false)) :
    c.sendResponse marshal writer request api (some response) statusCode =
      match marshal response with
      | .error err =>
        (http.Error (prepared writer request statusCode) err StatusInternalServerError,
          [c.lc.Error ("Unable to marshal " ++ api ++ " response")
            ["error", err, CorrelationHeader, request.header.Get CorrelationHeader]])
      | .ok data =>
        match (prepared writer request statusCode).Write data with
        | (writer, some err) =>
          (http.Error writer err StatusInternalServerError,
            [c.lc.Error ("Unable to write " ++ api ++ " response")
              ["error", err, CorrelationHeader, request.header.Get CorrelationHeader]])
        | (writer, none) => (writer, []) := by
  simp only [CommonController.sendResponse, WriteHeader_prepared writer request statusCode h]

/-- On a final status code and a writer with no committed head, whatever happens to
marshalling and writing, the status the client receives from `sendResponse` is the
`statusCode` argument. -/
theorem sendResponse_status {α : Type} (c : CommonController)
    (marshal : α → Except String String) (writer : ResponseWriter) (request : Request)
    (api : String) (response : Option α) (statusCode : Int)
    (hfresh : writer.wroteHeader = false)
    (hlo : 200 ≤ statusCode) (hhi : statusCode ≤ 999) :
    (c.sendResponse marshal writer request api response statusCode).1.status = statusCode := by
  have hfinal := final_of_range statusCode hlo hhi
  have hp := prepared_wroteHeader writer request statusCode
  have hs := prepared_status writer request statusCode hfresh
  cases response with
  | none =>
    simp only [CommonController.sendResponse,
      WriteHeader_prepared writer request statusCode (Or.inr hfinal)]
    exact hs
  | some response =>
    rw [sendResponse_prepared c marshal writer request api response statusCode (Or.inr hfinal)]
    cases hm : marshal response with
    | error err => exact (Error_committed _ err _ hp).1.trans hs
    | ok data =>
      have hw := Write_committed _ data hp
      show (match (prepared writer request statusCode).Write data with
        | (writer, some err) => (http.Error writer err StatusInternalServerError, _)
        | (writer, none) => ((writer, []) : ResponseWriter × List LogEntry)).1.status = statusCode
      rcases hwr : (prepared writer request statusCode).Write data with ⟨w2, _ | err⟩
      · rw [hwr] at hw
        exact hw.1.trans hs
      · rw [hwr] at hw
        exact (Error_committed _ err _ hw.2.2.1).1.trans (hw.1.trans hs)

/-- The function `http.Error` on a committed head only adds calls after those already
made. -/
theorem Error_calls (w : ResponseWriter) (err : String) (code : Int)
    (hw : w.wroteHeader = true) :
    w.calls <+: (http.Error w err code).calls := by
  by_cases hd : err ++ "\n" = ""
  · by_cases hm : w.reqMethod = "HEAD" <;>
      simp [http.Error, ResponseWriter.WriteHeader, ResponseWriter.HeaderSet,
        ResponseWriter.Write, ResponseWriter.commit, ResponseWriter.deliver, hw, hd, hm,
        List.prefix_iff_eq_append]
  · by_cases hb : bodyAllowedForStatus w.status = true
    · by_cases hm : w.reqMethod = "HEAD" <;>
        rcases he : w.writeErrors with _ | ⟨_ | e, rest⟩ <;>
        simp [http.Error, ResponseWriter.WriteHeader, ResponseWriter.HeaderSet,
          ResponseWriter.Write, ResponseWriter.commit, ResponseWriter.deliver, hw, hd, hm,
          hb, he, List.prefix_iff_eq_append]
    · simp [http.Error, ResponseWriter.WriteHeader, ResponseWriter.HeaderSet,
        ResponseWriter.Write, ResponseWriter.commit, hw, hd, hb,
        List.prefix_iff_eq_append]

/-- With a payload that marshals, `sendResponse` sets the two headers, writes the status
code and writes the marshalled payload, in this order, before anything else it may do. -/
theorem sendResponse_calls {α : Type} (c : CommonController)
    (marshal : α → Except String String) (writer : ResponseWriter) (request : Request)
    (api : String) (response : α) (statusCode : Int) (data : String)
    (h : writer.wroteHeader = true ∨
      (checkWriteHeaderCode statusCode = true ∧ isInformational statusCode = false))
    (hmarshal : marshal response = .ok data) :
    writer.calls ++
        [.headerSet CorrelationHeader (request.header.Get CorrelationHeader),
         .headerSet ContentType ContentTypeJSON, .writeHeader statusCode, .write data] <+:
      (c.sendResponse marshal writer request api (some response) statusCode).1.calls := by
  have hp := prepared_wroteHeader writer request statusCode
  have hw := Write_committed (prepared writer request statusCode) data hp
  have hcalls : ((prepared writer request statusCode).Write data).1.calls = writer.calls ++
      [.headerSet CorrelationHeader (request.header.Get CorrelationHeader),
       .headerSet ContentType ContentTypeJSON, .writeHeader statusCode, .write data] := by
    rw [hw.2.2.2.1, prepared_calls]
    simp
  rw [sendResponse_prepared c marshal writer request api response statusCode h, hmarshal,
    ← hcalls]
  show ((prepared writer request statusCode).Write data).1.calls <+:
    (match (prepared writer request statusCode).Write data with
      | (writer, some err) => (http.Error writer err StatusInternalServerError, _)
      | (writer, none) => ((writer, []) : ResponseWriter × List LogEntry)).1.calls
  rcases hwr : (prepared writer request statusCode).Write data with ⟨w2, _ | err⟩
  · exact List.prefix_refl _
  · rw [hwr] at hw
    exact Error_calls w2 err _ hw.2.2.1

/-- The success path of `sendResponse`: final status code that allows a body, payload
that marshals, connection that accepts the write, head not committed before. -/
theorem sendResponse_ok {α : Type} (c : CommonController)
    (marshal : α → Except String String) (writer : ResponseWriter) (request : Request)
    (api : String) (response : α) (statusCode : Int) (data : String)
    (hmarshal : marshal response = .ok data)
    (hlo : 200 ≤ statusCode) (hhi : statusCode ≤ 999)
    (hbody : bodyAllowedForStatus statusCode = true)
    (hwrite : ∀ err, writer.writeErrors.head? ≠ some (some err))
    (hfresh : writer.wroteHeader = false) :
    (c.sendResponse marshal writer request api (some response) statusCode).2 = [] ∧
    (c.sendResponse marshal writer request api (some response) statusCode).1.calls =
      writer.calls ++
        [.headerSet CorrelationHeader (request.header.Get CorrelationHeader),
         .headerSet ContentType ContentTypeJSON, .writeHeader statusCode, .write data] ∧
    (c.sendResponse marshal writer request api (some response) statusCode).1.status =
      statusCode ∧
    (c.sendResponse marshal writer request api (some response)
        statusCode).1.sentHeader.Get CorrelationHeader =
      request.header.Get CorrelationHeader ∧
    (c.sendResponse marshal writer request api (some response)
        statusCode).1.sentHeader.Get ContentType = ContentTypeJSON ∧
    (c.sendResponse marshal writer request api (some response) statusCode).1.interim =
      writer.interim ∧
    (c.sendResponse marshal writer request api (some response) statusCode).1.panicked =
      writer.panicked ∧
    (writer.reqMethod ≠ "HEAD" →
      (c.sendResponse marshal writer request api (some response) statusCode).1.body =
        writer.body ++ [data]) := by
  have hfinal := final_of_range statusCode hlo hhi
  have hp := prepared_wroteHeader writer request statusCode
  have hs := prepared_status writer request statusCode hfresh
  have hpf := prepared_frame writer request statusCode
  have hw := Write_success (prepared writer request statusCode) data hp
    (by rw [hs]; exact hbody) (by rw [hpf.2.1]; exact hwrite)
  have hc := Write_committed (prepared writer request statusCode) data hp
  have heq : c.sendResponse marshal writer request api (some response) statusCode =
      (((prepared writer request statusCode).Write data).1, []) := by
    rw [sendResponse_prepared c marshal writer request api response statusCode
      (Or.inr hfinal), hmarshal]
    show (match (prepared writer request statusCode).Write data with
      | (writer, some err) => (http.Error writer err StatusInternalServerError, _)
      | (writer, none) => ((writer, []) : ResponseWriter × List LogEntry)) = _
    rcases hwr : (prepared writer request statusCode).Write data with ⟨w2, _ | err⟩
    · rfl
    · rw [hwr] at hw
      exact absurd hw.1 (by simp)
  rw [heq]
  refine ⟨rfl, ?_, ?_, ?_, ?_, ?_, ?_, ?_⟩
  · show ((prepared writer request statusCode).Write data).1.calls = _
    rw [hc.2.2.2.1, prepared_calls]
    simp
  · show ((prepared writer request statusCode).Write data).1.status = _
    rw [hc.1, hs]
  · show ((prepared writer request statusCode).Write data).1.sentHeader.Get _ = _
    rw [hc.2.1, prepared_sentHeader _ _ _ hfresh,
      Header.Get_Set_other _ _ _ _ (by decide), Header.Get_Set_same]
  · show ((prepared writer request statusCode).Write data).1.sentHeader.Get _ = _
    rw [hc.2.1, prepared_sentHeader _ _ _ hfresh, Header.Get_Set_same]
  · show ((prepared writer request statusCode).Write data).1.interim = _
    rw [hc.2.2.2.2.1, hpf.2.2.2.1]
  · show ((prepared writer request statusCode).Write data).1.panicked = _
    rw [hc.2.2.2.2.2, hpf.2.2.2.2]
  · intro hmethod
    show ((prepared writer request statusCode).Write data).1.body = _
    rw [hw.2 (by rw [hpf.2.2.1]; exact hmethod), hpf.1]

/-- C4: for every status code from 200 to 999 that allows a body, every payload that
marshals and every writer whose head is not committed, whose connection accepts the write
and whose request is not a HEAD request, `sendResponse` logs nothing and makes exactly
four calls on the writer, in this order: set the correlation-ID header to the value of the
request's correlation-ID header (the empty string when the request has none), set
Content-Type to application/json, write the status code, write the marshalled payload
once.  The response carries these two headers, its status is the `statusCode` argument,
its body grows by exactly the marshalled payload, no interim head is sent and nothing
panics. -/
theorem sendResponse_success {α : Type} (c : CommonController)
    (marshal : α → Except String String) (writer : ResponseWriter) (request : Request)
    (api : String) (response : α) (statusCode : Int) (data : String)
    (hmarshal : marshal response = .ok data)
    (hlo : 200 ≤ statusCode) (hhi : statusCode ≤ 999)
    (hbody : bodyAllowedForStatus statusCode = true)
    (hwrite : ∀ err, writer.writeErrors.head? ≠ some (some err))
    (hfresh : writer.wroteHeader = false)
    (hmethod : writer.reqMethod ≠ "HEAD") :
    (c.sendResponse marshal writer request api (some response) statusCode).2 = [] ∧
    (c.sendResponse marshal writer request api (some response) statusCode).1.calls =
      writer.calls ++
        [.headerSet CorrelationHeader (request.header.Get CorrelationHeader),
         .headerSet ContentType ContentTypeJSON, .writeHeader statusCode, .write data] ∧
    (c.sendResponse marshal writer request api (some response) statusCode).1.body =
      writer.body ++ [data] ∧
    (request.header.entries.lookup CorrelationHeader = none →
      request.header.Get CorrelationHeader = "") ∧
    (c.sendResponse marshal writer request api (some response) statusCode).1.status =
      statusCode ∧
    (c.sendResponse marshal writer request api (some response)
        statusCode).1.sentHeader.Get CorrelationHeader =
      request.header.Get CorrelationHeader ∧
    (c.sendResponse marshal writer request api (some response)
        statusCode).1.sentHeader.Get ContentType = ContentTypeJSON ∧
    (c.sendResponse marshal writer request api (some response) statusCode).1.interim =
      writer.interim ∧
    (c.sendResponse marshal writer request api (some response) statusCode).1.panicked =
      writer.panicked := by
  obtain ⟨h1, h2, h3, h4, h5, h6, h7, h8⟩ := sendResponse_ok c marshal writer request api
    response statusCode data hmarshal hlo hhi hbody hwrite hfresh
  refine ⟨h1, h2, h8 hmethod, ?_, h3, h4, h5, h6, h7⟩
  intro hnone
  simp [Header.Get, hnone]

theorem sendResponse_success_witness :
    sampleMarshal (.NewPingResponse "core-data") = .ok "ping core-data" ∧
    (200 : Int) ≤ 201 ∧ (201 : Int) ≤ 999 ∧ bodyAllowedForStatus 201 = true ∧
    (∀ err, (ResponseWriter.fresh []).writeErrors.head? ≠ some (some err)) ∧
    (ResponseWriter.fresh []).wroteHeader = false ∧
    (ResponseWriter.fresh []).reqMethod ≠ "HEAD" ∧
    (sampleController.sendResponse sampleMarshal (ResponseWriter.fresh []) sampleRequest
        ApiPingRoute (some (.NewPingResponse "core-data")) 201).1.body =
      [] ++ ["ping core-data"] ∧
    (sampleController.sendResponse sampleMarshal (ResponseWriter.fresh []) sampleRequest
        ApiPingRoute (some (.NewPingResponse "core-data")) 201).1.status = 201 :=
  have h := sendResponse_success sampleController sampleMarshal (ResponseWriter.fresh [])
    sampleRequest ApiPingRoute (.NewPingResponse "core-data") 201 "ping core-data" rfl
    (by decide) (by decide) (by decide) (by simp [ResponseWriter.fresh]) rfl (by decide)
  ⟨rfl, by decide, by decide, by decide, by simp [ResponseWriter.fresh], rfl, by decide,
    h.2.2.1, h.2.2.2.2.1⟩

/-- C4, as stated, fails outside these status codes and for HEAD requests, although the
payload marshals and every write succeeds (nothing is logged).  With the informational
code 103 the code is sent as an interim head and the client receives status 200, not
103.  With the code 0 `WriteHeader` panics: no head is committed and nothing is written.
For a HEAD request the write is accepted and the client receives no body. -/
theorem sendResponse_success_counterexample :
    sampleMarshal (.NewPingResponse "core-data") = .ok "ping core-data" ∧
    (sampleController.sendResponse sampleMarshal (ResponseWriter.fresh []) sampleRequest
        ApiPingRoute (some (.NewPingResponse "core-data")) 103).2 = [] ∧
    (sampleController.sendResponse sampleMarshal (ResponseWriter.fresh []) sampleRequest
        ApiPingRoute (some (.NewPingResponse "core-data")) 103).1.body = ["ping core-data"] ∧
    (sampleController.sendResponse sampleMarshal (ResponseWriter.fresh []) sampleRequest
        ApiPingRoute (some (.NewPingResponse "core-data")) 103).1.interim = [103] ∧
    (sampleController.sendResponse sampleMarshal (ResponseWriter.fresh []) sampleRequest
        ApiPingRoute (some (.NewPingResponse "core-data")) 103).1.status = 200 ∧
    ¬ (sampleController.sendResponse sampleMarshal (ResponseWriter.fresh []) sampleRequest
        ApiPingRoute (some (.NewPingResponse "core-data")) 103).1.status = 103 ∧
    (sampleController.sendResponse sampleMarshal (ResponseWriter.fresh []) sampleRequest
        ApiPingRoute (some (.NewPingResponse "core-data")) 0).1.panicked = true ∧
    (sampleController.sendResponse sampleMarshal (ResponseWriter.fresh []) sampleRequest
        ApiPingRoute (some (.NewPingResponse "core-data")) 0).1.wroteHeader = false ∧
    (sampleController.sendResponse sampleMarshal (ResponseWriter.fresh []) sampleRequest
        ApiPingRoute (some (.NewPingResponse "core-data")) 0).1.body = [] ∧
    (sampleController.sendResponse sampleMarshal headWriter headRequest
        ApiPingRoute (some (.NewPingResponse "core-data")) StatusOK).2 = [] ∧
    (sampleController.sendResponse sampleMarshal headWriter headRequest
        ApiPingRoute (some (.NewPingResponse "core-data")) StatusOK).1.status = 200 ∧
    (sampleController.sendResponse sampleMarshal headWriter headRequest
        ApiPingRoute (some (.NewPingResponse "core-data")) StatusOK).1.body = [] ∧
    ¬ (sampleController.sendResponse sampleMarshal headWriter headRequest
        ApiPingRoute (some (.NewPingResponse "core-data")) StatusOK).1.body =
      ["ping core-data"] := by
  refine ⟨rfl, rfl, rfl, rfl, rfl, ?_, rfl, rfl, rfl, rfl, rfl, rfl, ?_⟩ <;> decide

/-- C1: evaluation of the code where the claim fails.  When the first write fails inside
the Ping handler, and when marshalling fails inside `sendResponse`, the status the client
receives is the 200 committed before marshalling, not 500: the `WriteHeader(500)` of
`http.Error` comes second and is ignored.  The error is logged once, and the body holds
the error text followed by a newline when the later write succeeds, nothing when it fails
as well. -/
theorem sendResponse_failure_keeps_committed_status :
    (sampleController.Ping sampleMarshal
        (ResponseWriter.fresh [some "write: broken pipe"]) sampleRequest).1.status = 200 ∧
    (sampleController.Ping sampleMarshal
        (ResponseWriter.fresh [some "write: broken pipe"]) sampleRequest).1.body =
      ["write: broken pipe\n"] ∧
    (sampleController.Ping sampleMarshal
        (ResponseWriter.fresh [some "write: broken pipe", some "write: broken pipe"])
        sampleRequest).1.body = [] ∧
    (sampleController.Ping sampleMarshal
        (ResponseWriter.fresh [some "write: broken pipe"]) sampleRequest).2 =
      [{ client := ⟨1⟩, level := "ERROR", msg := "Unable to write /api/v3/ping response",
         args := ["error", "write: broken pipe", "X-Correlation-ID", "abc-123"] }] ∧
    (sampleController.sendResponse failingMarshal (ResponseWriter.fresh []) sampleRequest
        ApiPingRoute (some (.NewPingResponse "core-data")) StatusOK).1.status = 200 ∧
    (sampleController.sendResponse failingMarshal (ResponseWriter.fresh []) sampleRequest
        ApiPingRoute (some (.NewPingResponse "core-data")) StatusOK).1.sentHeader.Get
        ContentType = "application/json" ∧
    (sampleController.sendResponse failingMarshal (ResponseWriter.fresh []) sampleRequest
        ApiPingRoute (some (.NewPingResponse "core-data")) StatusOK).1.body =
      ["json: unsupported value\n"] ∧
    (sampleController.sendResponse failingMarshal (ResponseWriter.fresh []) sampleRequest
        ApiPingRoute (some (.NewPingResponse "core-data")) StatusOK).1.calls =
      [.headerSet "X-Correlation-ID" "abc-123", .headerSet "Content-Type" "application/json",
       .writeHeader 200, .headerSet "Content-Type" "text/plain; charset=utf-8",
       .headerSet "X-Content-Type-Options" "nosniff", .writeHeader 500,
       .write "json: unsupported value\n"] := by
  refine ⟨?_, ?_, ?_, ?_, ?_, ?_, ?_, ?_⟩ <;> rfl

/-- The response `sendResponse` produces reads the controller only through its logging
client, and the request only through its correlation-ID header. -/
theorem sendResponse_writer_congr {α : Type} (c c' : CommonController)
    (marshal : α → Except String String) (writer : ResponseWriter) (request request' : Request)
    (api : String) (response : Option α) (statusCode : Int)
    (hcorr : request'.header.Get CorrelationHeader = request.header.Get CorrelationHeader) :
    (c'.sendResponse marshal writer request' api response statusCode).1 =
      (c.sendResponse marshal writer request api response statusCode).1 := by
  simp only [CommonController.sendResponse, hcorr]
  cases ((writer.HeaderSet CorrelationHeader (request.header.Get CorrelationHeader)).HeaderSet
      ContentType ContentTypeJSON).WriteHeader statusCode with
  | error w => rfl
  | ok w =>
    cases response with
    | none => rfl
    | some response =>
      dsimp only
      cases marshal response with
      | error err => rfl
      | ok data =>
        show (match w.Write data with
          | (writer, some err) => (http.Error writer err StatusInternalServerError, _)
          | (writer, none) => ((writer, []) : ResponseWriter × List LogEntry)).1 =
          (match w.Write data with
          | (writer, some err) => (http.Error writer err StatusInternalServerError, _)
          | (writer, none) => ((writer, []) : ResponseWriter × List LogEntry)).1
        rcases w.Write data with ⟨w2, _ | err⟩ <;> rfl

/-- What a handler that passes a payload and status 200 to `sendResponse` does with a
payload that marshals: the four calls come first, and on a writer whose head is not
committed and whose connection accepts the write the response is complete. -/
theorem sendResponse_200 (c : CommonController) (marshal : Payload → Except String String)
    (writer : ResponseWriter) (request : Request) (api : String) (response : Payload)
    (data : String) (hmarshal : marshal response = .ok data) :
    (writer.calls ++
        [.headerSet CorrelationHeader (request.header.Get CorrelationHeader),
         .headerSet ContentType ContentTypeJSON, .writeHeader 200, .write data] <+:
      (c.sendResponse marshal writer request api (some response) StatusOK).1.calls) ∧
    (writer.wroteHeader = false →
      (∀ err, writer.writeErrors.head? ≠ some (some err)) →
      (c.sendResponse marshal writer request api (some response) StatusOK).2 = [] ∧
      (c.sendResponse marshal writer request api (some response) StatusOK).1.calls =
        writer.calls ++
          [.headerSet CorrelationHeader (request.header.Get CorrelationHeader),
           .headerSet ContentType ContentTypeJSON, .writeHeader 200, .write data] ∧
      (c.sendResponse marshal writer request api (some response) StatusOK).1.status = 200 ∧
      (c.sendResponse marshal writer request api (some response)
          StatusOK).1.sentHeader.Get CorrelationHeader =
        request.header.Get CorrelationHeader ∧
      (c.sendResponse marshal writer request api (some response)
          StatusOK).1.sentHeader.Get ContentType = ContentTypeJSON ∧
      (writer.reqMethod ≠ "HEAD" →
        (c.sendResponse marshal writer request api (some response) StatusOK).1.body =
          writer.body ++ [data])) := by
  refine ⟨sendResponse_calls c marshal writer request api response StatusOK data
    (Or.inr (by decide)) hmarshal, ?_⟩
  intro hfresh hwrite
  obtain ⟨h1, h2, h3, h4, h5, -, -, h8⟩ := sendResponse_ok c marshal writer request api
    response StatusOK data hmarshal (by decide) (by decide) (by decide) hwrite hfresh
  exact ⟨h1, h2, h3, h4, h5, h8⟩

/-- C3: for every controller state and every request, the Ping handler is `sendResponse`
applied to the payload `NewPingResponse(serviceName)` and status 200, and on a writer
whose head is not committed the client receives status 200.  The response is the same for
any other controller with the same service name (whatever its version fields and custom
configuration) and any other request with the same correlation ID (whatever its other
headers, credentials included).  When the payload marshals, the handler sets the two
headers, writes status 200 and writes the marshalled `NewPingResponse(serviceName)`, in
this order and before anything else; on a writer whose head is not committed and whose
connection accepts the write these are all its calls, nothing is logged, the response has
status 200, the JSON content type and the request's correlation ID, and (unless the
request is a HEAD request) its body grows by exactly the marshalled payload, which names
the controller's service. -/
theorem Ping_response (c : CommonController) (marshal : Payload → Except String String)
    (writer : ResponseWriter) (request : Request) :
    c.Ping marshal writer request =
      c.sendResponse marshal writer request ApiPingRoute
        (some (.NewPingResponse c.serviceName)) StatusOK ∧
    (writer.wroteHeader = false → (c.Ping marshal writer request).1.status = 200) ∧
    (∀ (c' : CommonController) (request' : Request),
      c'.serviceName = c.serviceName →
      request'.header.Get CorrelationHeader = request.header.Get CorrelationHeader →
      (c'.Ping marshal writer request').1 = (c.Ping marshal writer request).1) ∧
    (∀ data : String, marshal (.NewPingResponse c.serviceName) = .ok data →
      (writer.calls ++
          [.headerSet CorrelationHeader (request.header.Get CorrelationHeader),
           .headerSet ContentType ContentTypeJSON, .writeHeader 200, .write data] <+:
        (c.Ping marshal writer request).1.calls) ∧
      (writer.wroteHeader = false →
        (∀ err, writer.writeErrors.head? ≠ some (some err)) →
        (c.Ping marshal writer request).2 = [] ∧
        (c.Ping marshal writer request).1.calls =
          writer.calls ++
            [.headerSet CorrelationHeader (request.header.Get CorrelationHeader),
             .headerSet ContentType ContentTypeJSON, .writeHeader 200, .write data] ∧
        (c.Ping marshal writer request).1.status = 200 ∧
        (c.Ping marshal writer request).1.sentHeader.Get CorrelationHeader =
          request.header.Get CorrelationHeader ∧
        (c.Ping marshal writer request).1.sentHeader.Get ContentType = ContentTypeJSON ∧
        (writer.reqMethod ≠ "HEAD" →
          (c.Ping marshal writer request).1.body = writer.body ++ [data]))) := by
  refine ⟨rfl, ?_, ?_, ?_⟩
  · intro hfresh
    exact sendResponse_status c marshal writer request ApiPingRoute _ StatusOK hfresh
      (by decide) (by decide)
  · intro c' request' hname hcorr
    simp only [CommonController.Ping, hname]
    exact sendResponse_writer_congr c c' marshal writer request request' _ _ _ hcorr
  · intro data hmarshal
    exact sendResponse_200 c marshal writer request ApiPingRoute _ data hmarshal

theorem Ping_response_witness :
    (ResponseWriter.fresh []).wroteHeader = false ∧
    (sampleController.Ping sampleMarshal (ResponseWriter.fresh []) sampleRequest).1.status =
      200 ∧
    ((sampleController.SetVersion "3.1.0" "3.1.1").Ping sampleMarshal (ResponseWriter.fresh [])
        { sampleRequest with header := ⟨[("X-Correlation-ID", ["abc-123"])]⟩ }).1 =
      (sampleController.Ping sampleMarshal (ResponseWriter.fresh []) sampleRequest).1 ∧
    sampleMarshal (.NewPingResponse sampleController.serviceName) = .ok "ping core-data" ∧
    (∀ err, (ResponseWriter.fresh []).writeErrors.head? ≠ some (some err)) ∧
    (ResponseWriter.fresh []).reqMethod ≠ "HEAD" ∧
    (sampleController.Ping sampleMarshal (ResponseWriter.fresh []) sampleRequest).1.body =
      [] ++ ["ping core-data"] ∧
    (sampleController.Ping sampleMarshal (ResponseWriter.fresh []) sampleRequest).2 = [] :=
  have h := Ping_response sampleController sampleMarshal (ResponseWriter.fresh []) sampleRequest
  have hw : ∀ err, (ResponseWriter.fresh []).writeErrors.head? ≠ some (some err) := by
    simp [ResponseWriter.fresh]
  have hb := (h.2.2.2 "ping core-data" rfl).2 rfl hw
  ⟨rfl, h.2.1 rfl, h.2.2.1 _ _ rfl rfl, rfl, hw, by decide, hb.2.2.2.2.2 (by decide), hb.1⟩

/-- C2: every controller returned by `NewCommonController` has an empty SDK version, and
for every controller whose SDK version is empty and every request the Version handler is
`sendResponse` applied to the payload `NewVersionResponse(serviceVersion, serviceName)`
and status 200; on a writer whose head is not committed the client receives status 200.
The SDK-version payload is not built: the result is the same under any two marshallers
that agree on the payloads without SDK version.  When the payload marshals, the handler
sets the two headers, writes status 200 and writes the marshalled
`NewVersionResponse(serviceVersion, serviceName)`, in this order and before anything
else; on a writer whose head is not committed and whose connection accepts the write
these are all its calls, nothing is logged, the response has status 200, the JSON content
type and the request's correlation ID, and (unless the request is a HEAD request) its
body grows by exactly that marshalled payload. -/
theorem Version_without_sdkVersion :
    (∀ (r : Router) (dic : Container) (serviceName : String),
      (NewCommonController r dic serviceName).version.sdkVersion = "") ∧
    (∀ (c : CommonController) (marshal : Payload → Except String String)
        (writer : ResponseWriter) (request : Request),
      c.version.sdkVersion = "" →
      c.Version marshal writer request =
        c.sendResponse marshal writer request ApiVersionRoute
          (some (.NewVersionResponse c.version.serviceVersion c.serviceName)) StatusOK ∧
      (writer.wroteHeader = false → (c.Version marshal writer request).1.status = 200) ∧
      (∀ marshal' : Payload → Except String String,
        (∀ v n, marshal' (.NewVersionResponse v n) = marshal (.NewVersionResponse v n)) →
        c.Version marshal' writer request = c.Version marshal writer request) ∧
      (∀ data : String, marshal (.NewVersionResponse c.version.serviceVersion c.serviceName) = .ok data →
        (writer.calls ++
            [.headerSet CorrelationHeader (request.header.Get CorrelationHeader),
             .headerSet ContentType ContentTypeJSON, .writeHeader 200, .write data] <+:
          (c.Version marshal writer request).1.calls) ∧
        (writer.wroteHeader = false →
          (∀ err, writer.writeErrors.head? ≠ some (some err)) →
          (c.Version marshal writer request).2 = [] ∧
          (c.Version marshal writer request).1.calls =
            writer.calls ++
              [.headerSet CorrelationHeader (request.header.Get CorrelationHeader),
               .headerSet ContentType ContentTypeJSON, .writeHeader 200, .write data] ∧
          (c.Version marshal writer request).1.status = 200 ∧
          (c.Version marshal writer request).1.sentHeader.Get CorrelationHeader =
            request.header.Get CorrelationHeader ∧
          (c.Version marshal writer request).1.sentHeader.Get ContentType = ContentTypeJSON ∧
          (writer.reqMethod ≠ "HEAD" →
            (c.Version marshal writer request).1.body = writer.body ++ [data])))) := by
  refine ⟨fun _ _ _ => rfl, ?_⟩
  intro c marshal writer request hsdk
  have heq : ∀ m : Payload → Except String String, c.Version m writer request =
      c.sendResponse m writer request ApiVersionRoute
        (some (.NewVersionResponse c.version.serviceVersion c.serviceName)) StatusOK := by
    intro m
    simp [CommonController.Version, hsdk]
  refine ⟨heq marshal, ?_, ?_, ?_⟩
  · intro hfresh
    rw [heq marshal]
    exact sendResponse_status c marshal writer request ApiVersionRoute _ StatusOK hfresh
      (by decide) (by decide)
  · intro marshal' hagree
    rw [heq marshal, heq marshal']
    simp only [CommonController.sendResponse, hagree]
  · intro data hmarshal
    rw [heq marshal]
    exact sendResponse_200 c marshal writer request ApiVersionRoute _ data hmarshal

theorem Version_without_sdkVersion_witness :
    sampleController.version.sdkVersion = "" ∧
    (ResponseWriter.fresh []).wroteHeader = false ∧
    sampleController.Version sampleMarshal (ResponseWriter.fresh []) bareVersionRequest =
      sampleController.sendResponse sampleMarshal (ResponseWriter.fresh []) bareVersionRequest
        ApiVersionRoute (some (.NewVersionResponse "" "core-data")) StatusOK ∧
    (sampleController.Version sampleMarshal (ResponseWriter.fresh [])
      bareVersionRequest).1.status = 200 ∧
    sampleMarshal (.NewVersionResponse sampleController.version.serviceVersion
      sampleController.serviceName) = .ok "version  core-data" ∧
    (∀ err, (ResponseWriter.fresh []).writeErrors.head? ≠ some (some err)) ∧
    (ResponseWriter.fresh []).reqMethod ≠ "HEAD" ∧
    (sampleController.Version sampleMarshal (ResponseWriter.fresh [])
      bareVersionRequest).1.body = [] ++ ["version  core-data"] :=
  have h := Version_without_sdkVersion.2 sampleController sampleMarshal (ResponseWriter.fresh [])
    bareVersionRequest rfl
  have hw : ∀ err, (ResponseWriter.fresh []).writeErrors.head? ≠ some (some err) := by
    simp [ResponseWriter.fresh]
  have hb := (h.2.2.2 "version  core-data" rfl).2 rfl hw
  ⟨rfl, rfl, h.1, h.2.1 rfl, rfl, hw, by decide, hb.2.2.2.2.2 (by decide)⟩

/-- C8: after `SetVersion(sv, sdk)` the controller's service version is `sv` and its SDK
version is `sdk`, whatever was set before; and if `sdk` is not empty the Version handler
is `sendResponse` applied to the payload `NewVersionSdkResponse(sv, sdk, serviceName)` and
status 200, so that on a writer whose head is not committed the client receives 200.
When that payload marshals, the handler sets the two headers, writes status 200 and
writes the marshalled `NewVersionSdkResponse(sv, sdk, serviceName)`, in this order and
before anything else; on a writer whose head is not committed and whose connection
accepts the write these are all its calls, nothing is logged, the response has status
200, the JSON content type and the request's correlation ID, and (unless the request is
a HEAD request) its body grows by exactly that marshalled payload, which reports both
version strings. -/
theorem SetVersion_then_Version (c : CommonController) (sv sdk : String) :
    (c.SetVersion sv sdk).version.serviceVersion = sv ∧
    (c.SetVersion sv sdk).version.sdkVersion = sdk ∧
    (∀ sv0 sdk0 : String, ((c.SetVersion sv0 sdk0).SetVersion sv sdk).version = ⟨sv, sdk⟩) ∧
    (sdk ≠ "" →
      ∀ (marshal : Payload → Except String String) (writer : ResponseWriter)
        (request : Request),
        (c.SetVersion sv sdk).Version marshal writer request =
          (c.SetVersion sv sdk).sendResponse marshal writer request ApiVersionRoute
            (some (.NewVersionSdkResponse sv sdk c.serviceName)) StatusOK ∧
        (writer.wroteHeader = false →
          ((c.SetVersion sv sdk).Version marshal writer request).1.status = 200) ∧
        (∀ data : String, marshal (.NewVersionSdkResponse sv sdk c.serviceName) = .ok data →
          (writer.calls ++
              [.headerSet CorrelationHeader (request.header.Get CorrelationHeader),
               .headerSet ContentType ContentTypeJSON, .writeHeader 200, .write data] <+:
            ((c.SetVersion sv sdk).Version marshal writer request).1.calls) ∧
          (writer.wroteHeader = false →
            (∀ err, writer.writeErrors.head? ≠ some (some err)) →
            ((c.SetVersion sv sdk).Version marshal writer request).2 = [] ∧
            ((c.SetVersion sv sdk).Version marshal writer request).1.calls =
              writer.calls ++
                [.headerSet CorrelationHeader (request.header.Get CorrelationHeader),
                 .headerSet ContentType ContentTypeJSON, .writeHeader 200, .write data] ∧
            ((c.SetVersion sv sdk).Version marshal writer request).1.status = 200 ∧
            ((c.SetVersion sv sdk).Version marshal writer request).1.sentHeader.Get CorrelationHeader =
              request.header.Get CorrelationHeader ∧
            ((c.SetVersion sv sdk).Version marshal writer request).1.sentHeader.Get ContentType = ContentTypeJSON ∧
            (writer.reqMethod ≠ "HEAD" →
              ((c.SetVersion sv sdk).Version marshal writer request).1.body = writer.body ++ [data])))) := by
  refine ⟨rfl, rfl, fun _ _ => rfl, ?_⟩
  intro hsdk marshal writer request
  have heq : (c.SetVersion sv sdk).Version marshal writer request =
      (c.SetVersion sv sdk).sendResponse marshal writer request ApiVersionRoute
        (some (.NewVersionSdkResponse sv sdk c.serviceName)) StatusOK := by
    simp [CommonController.Version, CommonController.SetVersion, hsdk]
  refine ⟨heq, fun hfresh => ?_, ?_⟩
  · rw [heq]
    exact sendResponse_status _ marshal writer request ApiVersionRoute _ StatusOK hfresh
      (by decide) (by decide)
  · intro data hmarshal
    rw [heq]
    exact sendResponse_200 _ marshal writer request ApiVersionRoute _ data hmarshal

theorem SetVersion_then_Version_witness :
    "3.1.1" ≠ "" ∧ (ResponseWriter.fresh []).wroteHeader = false ∧
    (sampleController.SetVersion "3.1.0" "3.1.1").Version sampleMarshal (ResponseWriter.fresh [])
        bareVersionRequest =
      (sampleController.SetVersion "3.1.0" "3.1.1").sendResponse sampleMarshal
        (ResponseWriter.fresh []) bareVersionRequest ApiVersionRoute
        (some (.NewVersionSdkResponse "3.1.0" "3.1.1" "core-data")) StatusOK ∧
    ((sampleController.SetVersion "3.1.0" "3.1.1").Version sampleMarshal
      (ResponseWriter.fresh []) bareVersionRequest).1.status = 200 ∧
    sampleMarshal (.NewVersionSdkResponse "3.1.0" "3.1.1" sampleController.serviceName) =
      .ok "version 3.1.0 sdk 3.1.1 core-data" ∧
    (∀ err, (ResponseWriter.fresh []).writeErrors.head? ≠ some (some err)) ∧
    (ResponseWriter.fresh []).reqMethod ≠ "HEAD" ∧
    ((sampleController.SetVersion "3.1.0" "3.1.1").Version sampleMarshal
      (ResponseWriter.fresh []) bareVersionRequest).1.body =
      [] ++ ["version 3.1.0 sdk 3.1.1 core-data"] :=
  have h := (SetVersion_then_Version sampleController "3.1.0" "3.1.1").2.2.2 (by decide)
    sampleMarshal (ResponseWriter.fresh []) bareVersionRequest
  have hw : ∀ err, (ResponseWriter.fresh []).writeErrors.head? ≠ some (some err) := by
    simp [ResponseWriter.fresh]
  have hb := (h.2.2 "version 3.1.0 sdk 3.1.1 core-data" rfl).2 rfl hw
  ⟨by decide, rfl, h.1, h.2.1 rfl, rfl, hw, by decide, hb.2.2.2.2.2 (by decide)⟩

/-- C9: `LoadCommonRoutes` appends exactly two routes to the router, both restricted to
GET: the ping route with the Ping handler itself, and the version route with the Version
handler wrapped in the authentication hook.  On a router without earlier routes, a GET
request to the ping route is served by the Ping handler whatever the hook is, a GET
request to the version route is served by the hook applied to the Version handler (so by
whatever the hook answers when it ignores its argument), and a request with another
method or another path matches no route. -/
theorem LoadCommonRoutes_routes
    (auth : SecretProviderExt → LoggingClient → HandlerFunc → HandlerFunc)
    (marshal : Payload → Except String String) (r : Router) (dic : Container)
    (serviceName : String) :
    (LoadCommonRoutes auth marshal r dic serviceName).routes =
      r.routes ++
        [{ path := ApiPingRoute, methods := [MethodGet],
           handler := (NewCommonController r dic serviceName).Ping marshal },
         { path := ApiVersionRoute, methods := [MethodGet],
           handler := auth dic.secretProvider dic.loggingClient
             ((NewCommonController r dic serviceName).Version marshal) }] ∧
    (LoadCommonRoutes auth marshal r dic serviceName).addr = r.addr ∧
    (r.routes = [] → ∀ req : Request,
      (req.path = ApiPingRoute → req.method = MethodGet →
        (LoadCommonRoutes auth marshal r dic serviceName).Match req =
          some ((NewCommonController r dic serviceName).Ping marshal)) ∧
      (req.path = ApiVersionRoute → req.method = MethodGet →
        (LoadCommonRoutes auth marshal r dic serviceName).Match req =
          some (auth dic.secretProvider dic.loggingClient
            ((NewCommonController r dic serviceName).Version marshal))) ∧
      (req.path = ApiVersionRoute → req.method = MethodGet →
        ∀ answer : HandlerFunc,
          (∀ inner, auth dic.secretProvider dic.loggingClient inner = answer) →
          (LoadCommonRoutes auth marshal r dic serviceName).Match req = some answer) ∧
      (req.method ≠ MethodGet →
        (LoadCommonRoutes auth marshal r dic serviceName).Match req = none) ∧
      (req.path ≠ ApiPingRoute → req.path ≠ ApiVersionRoute →
        (LoadCommonRoutes auth marshal r dic serviceName).Match req = none)) := by
  have hroutes : (LoadCommonRoutes auth marshal r dic serviceName).routes =
      r.routes ++
        [{ path := ApiPingRoute, methods := [MethodGet],
           handler := (NewCommonController r dic serviceName).Ping marshal },
         { path := ApiVersionRoute, methods := [MethodGet],
           handler := auth dic.secretProvider dic.loggingClient
             ((NewCommonController r dic serviceName).Version marshal) }] := by
    simp [LoadCommonRoutes, Router.HandleFunc, NewCommonController, SecretProviderExtFrom,
      LoggingClientFrom]
  refine ⟨hroutes, rfl, ?_⟩
  intro hempty req
  have hne : ApiPingRoute ≠ ApiVersionRoute := by decide
  have hversion : req.path = ApiVersionRoute → req.method = MethodGet →
      (LoadCommonRoutes auth marshal r dic serviceName).Match req =
        some (auth dic.secretProvider dic.loggingClient
          ((NewCommonController r dic serviceName).Version marshal)) := by
    intro hpath hmethod
    simp [Router.Match, hroutes, hempty, Route.matches, hpath, hmethod, List.find?, hne]
  refine ⟨?_, hversion, ?_, ?_, ?_⟩
  · intro hpath hmethod
    simp [Router.Match, hroutes, hempty, Route.matches, hpath, hmethod, List.find?]
  · intro hpath hmethod answer hanswer
    rw [hversion hpath hmethod, hanswer]
  · intro hmethod
    simp [Router.Match, hroutes, hempty, Route.matches, List.find?, hmethod]
  · intro hping hversion'
    have h1 : (ApiPingRoute == req.path) = false := by
      simpa using fun h : ApiPingRoute = req.path => hping h.symm
    have h2 : (ApiVersionRoute == req.path) = false := by
      simpa using fun h : ApiVersionRoute = req.path => hversion' h.symm
    simp [Router.Match, hroutes, hempty, Route.matches, List.find?, h1, h2]

theorem LoadCommonRoutes_routes_witness :
    emptyRouter.routes = [] ∧ sampleRequest.path = ApiPingRoute ∧
    sampleRequest.method = MethodGet ∧ bareVersionRequest.path = ApiVersionRoute ∧
    bareVersionRequest.method = MethodGet ∧
    (∀ inner, rejectAll sampleContainer.secretProvider sampleContainer.loggingClient inner =
      unauthorized) ∧
    (LoadCommonRoutes rejectAll sampleMarshal emptyRouter sampleContainer "core-data").Match
        sampleRequest = some (sampleController.Ping sampleMarshal) ∧
    (LoadCommonRoutes rejectAll sampleMarshal emptyRouter sampleContainer "core-data").Match
        bareVersionRequest = some unauthorized ∧
    (LoadCommonRoutes passThrough sampleMarshal emptyRouter sampleContainer "core-data").Match
        bareVersionRequest = some (sampleController.Version sampleMarshal) :=
  have h := (LoadCommonRoutes_routes rejectAll sampleMarshal emptyRouter sampleContainer
    "core-data").2.2 rfl
  have h' := (LoadCommonRoutes_routes passThrough sampleMarshal emptyRouter sampleContainer
    "core-data").2.2 rfl
  ⟨rfl, rfl, rfl, rfl, rfl, fun _ => rfl, (h sampleRequest).1 rfl rfl,
    (h bareVersionRequest).2.2.1 rfl rfl unauthorized (fun _ => rfl),
    (h' bareVersionRequest).2.1 rfl rfl⟩

theorem callAll_frame (calls : List SetterCall) (c : CommonController) :
    (c.callAll calls).serviceName = c.serviceName ∧ (c.callAll calls).lc = c.lc := by
  induction calls generalizing c with
  | nil => exact ⟨rfl, rfl⟩
  | cons call rest ih =>
    have h := ih (c.call call)
    cases call <;> exact h

/-- C10: `SetVersion` leaves the service name, the router, the custom configuration, the
logging client and the container unchanged; `SetCustomConfigInfo` leaves the service name
and both version fields (and the router, logging client and container) unchanged.  For
every request and writer the Ping handler gives the same result before and after any
sequence of setter calls, and the Version handler the same result before and after
`SetCustomConfigInfo`. -/
theorem setters_frame :
    (∀ (c : CommonController) (sv sdk : String),
      (c.SetVersion sv sdk).serviceName = c.serviceName ∧
      (c.SetVersion sv sdk).router = c.router ∧
      (c.SetVersion sv sdk).customConfig = c.customConfig ∧
      (c.SetVersion sv sdk).lc = c.lc ∧
      (c.SetVersion sv sdk).dic = c.dic) ∧
    (∀ (c : CommonController) (customConfig : Option UpdatableConfig),
      (c.SetCustomConfigInfo customConfig).serviceName = c.serviceName ∧
      (c.SetCustomConfigInfo customConfig).version.serviceVersion = c.version.serviceVersion ∧
      (c.SetCustomConfigInfo customConfig).version.sdkVersion = c.version.sdkVersion ∧
      (c.SetCustomConfigInfo customConfig).router = c.router ∧
      (c.SetCustomConfigInfo customConfig).lc = c.lc ∧
      (c.SetCustomConfigInfo customConfig).dic = c.dic) ∧
    (∀ (calls : List SetterCall) (c : CommonController)
        (marshal : Payload → Except String String) (writer : ResponseWriter)
        (request : Request),
      (c.callAll calls).Ping marshal writer request = c.Ping marshal writer request) ∧
    (∀ (c : CommonController) (customConfig : Option UpdatableConfig)
        (marshal : Payload → Except String String) (writer : ResponseWriter)
        (request : Request),
      (c.SetCustomConfigInfo customConfig).Version marshal writer request =
        c.Version marshal writer request) := by
  refine ⟨fun _ _ _ => ⟨rfl, rfl, rfl, rfl, rfl⟩, fun _ _ => ⟨rfl, rfl, rfl, rfl, rfl, rfl⟩,
    ?_, fun _ _ _ _ _ => rfl⟩
  intro calls c marshal writer request
  obtain ⟨hname, hlc⟩ := callAll_frame calls c
  simp only [CommonController.Ping, CommonController.sendResponse, hname, hlc]

/-! ## Provider-info lemmas -/

theorem splitAtFirst_append (sep : Char) (before after : List Char) (h : sep ∉ before) :
    splitAtFirst sep (before ++ sep :: after) = some (before, after) := by
  induction before with
  | nil => simp [splitAtFirst]
  | cons c cs ih =>
    have hc : c ≠ sep := fun e => h (by simp [e])
    have hcs : sep ∉ cs := fun e => h (by simp [e])
    simp [splitAtFirst, hc, ih hcs]

theorem foldl_decimal (ds : List Char) (acc : Nat) :
    ds.foldl (fun acc c => 10 * acc + digitValue c) acc =
      Nat.ofDigits 10 ((ds.map digitValue).reverse) + 10 ^ ds.length * acc := by
  induction ds generalizing acc with
  | nil => simp
  | cons d rest ih =>
    simp only [List.foldl_cons, List.map_cons, List.reverse_cons, List.length_cons]
    rw [ih, Nat.ofDigits_append, Nat.ofDigits_singleton]
    simp only [List.length_reverse, List.length_map]
    ring

theorem parsePort_digits (port : List Char) (hne : port ≠ [])
    (hdigits : ∀ c ∈ port, c.isDigit = true) :
    parsePort port = some (Nat.ofDigits 10 ((port.map digitValue).reverse)) := by
  cases port with
  | nil => exact absurd rfl hne
  | cons d rest =>
    have hall : (d :: rest).all Char.isDigit = true := by
      simpa [List.all_eq_true] using hdigits
    simp only [parsePort, hall, if_true, foldl_decimal, Nat.mul_zero, Nat.add_zero]

theorem parseProviderUrl_wellformed (type protocol host port : String)
    (htype : '.' ∉ type.data) (htype' : ':' ∉ type.data) (hprotocol : ':' ∉ protocol.data)
    (hhost : ':' ∉ host.data) (hport : port.data ≠ [])
    (hdigits : ∀ c ∈ port.data, c.isDigit = true) :
    parseProviderUrl (type ++ "." ++ protocol ++ "://" ++ host ++ ":" ++ port) =
      .ok { Type_ := type, Protocol := protocol, Host := host,
            Port := Nat.ofDigits 10 ((port.data.map digitValue).reverse) } := by
  have hdata : (type ++ "." ++ protocol ++ "://" ++ host ++ ":" ++ port).data =
      (type.data ++ '.' :: protocol.data) ++
        ':' :: ('/' :: '/' :: (host.data ++ ':' :: port.data)) := by
    simp [String.data_append]
  have hscheme : ':' ∉ type.data ++ '.' :: protocol.data := by
    intro hmem
    rcases List.mem_append.mp hmem with h | h
    · exact htype' h
    · rcases List.mem_cons.mp h with h | h
      · exact absurd h (by decide)
      · exact hprotocol h
  simp only [parseProviderUrl, hdata, splitAtFirst_append _ _ _ hscheme,
    splitAtFirst_append _ _ _ htype, splitAtFirst_append _ _ _ hhost,
    parsePort_digits _ hport hdigits]

theorem effectiveUrl_unset (envVars : Variables) (providerUrl : String)
    (henv : envVars.getenv envKeyConfigUrl = "") :
    effectiveUrl envVars providerUrl = providerUrl := by
  simp [effectiveUrl, henv]

theorem effectiveUrl_set (envVars : Variables) (providerUrl : String)
    (henv : envVars.getenv envKeyConfigUrl ≠ "") :
    effectiveUrl envVars providerUrl = envVars.getenv envKeyConfigUrl := by
  simp [effectiveUrl, henv]

/-- C5: with the override variable unset, `NewProviderInfo` on
`<type>.<protocol>://<host>:<port>` (the type without `.`, no `:` inside type, protocol or
host, the port a non-empty run of decimal digits) succeeds with Type the part of the scheme
before the first `.`, Protocol the part after it, Host the host name and Port the decimal
value of the port; for `consul.http://localhost:8500` the descriptor is
`{consul, http, localhost, 8500}`. -/
theorem NewProviderInfo_wellformed (envVars : Variables) (type protocol host port : String)
    (henv : envVars.getenv envKeyConfigUrl = "")
    (htype : '.' ∉ type.data) (htype' : ':' ∉ type.data) (hprotocol : ':' ∉ protocol.data)
    (hhost : ':' ∉ host.data) (hport : port.data ≠ [])
    (hdigits : ∀ c ∈ port.data, c.isDigit = true) :
    (NewProviderInfo envVars (type ++ "." ++ protocol ++ "://" ++ host ++ ":" ++ port)).map
        ProviderInfo.ServiceConfig =
      .ok { Type_ := type, Protocol := protocol, Host := host,
            Port := Nat.ofDigits 10 ((port.data.map digitValue).reverse) } ∧
    (NewProviderInfo envVars goodUrlValue).map ProviderInfo.ServiceConfig =
      .ok { Type_ := "consul", Protocol := "http", Host := "localhost", Port := 8500 } := by
  constructor
  · simp only [NewProviderInfo, effectiveUrl_unset _ _ henv,
      parseProviderUrl_wellformed type protocol host port htype htype' hprotocol hhost hport
        hdigits]
    rfl
  · simp only [NewProviderInfo, effectiveUrl_unset _ _ henv]
    rfl

theorem NewProviderInfo_wellformed_witness :
    Variables.unset.getenv envKeyConfigUrl = "" ∧
    '.' ∉ "etcd".data ∧ ':' ∉ "etcd".data ∧ ':' ∉ "grpc.tls".data ∧ ':' ∉ "10.0.0.7".data ∧
    "2379".data ≠ [] ∧ (∀ c ∈ "2379".data, c.isDigit = true) ∧
    (NewProviderInfo Variables.unset
        ("etcd" ++ "." ++ "grpc.tls" ++ "://" ++ "10.0.0.7" ++ ":" ++ "2379")).map
        ProviderInfo.ServiceConfig =
      .ok { Type_ := "etcd", Protocol := "grpc.tls", Host := "10.0.0.7",
            Port := Nat.ofDigits 10 (("2379".data.map digitValue).reverse) } :=
  ⟨rfl, by decide, by decide, by decide, by decide, by decide, by decide,
    (NewProviderInfo_wellformed Variables.unset "etcd" "grpc.tls" "10.0.0.7" "2379" rfl
      (by decide) (by decide) (by decide) (by decide) (by decide) (by decide)).1⟩

/-- C6: when the override variable holds a non-empty value `e`, `NewProviderInfo` with
any argument gives exactly the result it gives for argument `e` in an environment where
the variable is unset.  So a malformed value of the variable yields an error although the
argument is the valid URL, and the valid value yields its own descriptor whatever the
argument. -/
theorem NewProviderInfo_env_override (envVars unsetVars : Variables) (a e : String)
    (hset : envVars.getenv envKeyConfigUrl = e) (hne : e ≠ "")
    (hunset : unsetVars.getenv envKeyConfigUrl = "") :
    NewProviderInfo envVars a = NewProviderInfo unsetVars e ∧
    (e = badUrlValue → ∃ err, NewProviderInfo envVars goodUrlValue = .error err) ∧
    (e = goodUrlValue →
      (NewProviderInfo envVars a).map ProviderInfo.ServiceConfig =
        .ok { Type_ := "consul", Protocol := "http", Host := "localhost", Port := 8500 }) := by
  have heff : effectiveUrl envVars a = e := by
    rw [effectiveUrl_set _ _ (by rw [hset]; exact hne), hset]
  have heff' : effectiveUrl envVars goodUrlValue = e := by
    rw [effectiveUrl_set _ _ (by rw [hset]; exact hne), hset]
  refine ⟨?_, ?_, ?_⟩
  · simp only [NewProviderInfo, heff, effectiveUrl_unset _ _ hunset]
  · intro hbad
    subst hbad
    simp only [NewProviderInfo, heff']
    exact ⟨_, rfl⟩
  · intro hgood
    subst hgood
    simp only [NewProviderInfo, heff]
    rfl

theorem NewProviderInfo_env_override_witness :
    (Variables.override badUrlValue).getenv envKeyConfigUrl = badUrlValue ∧
    badUrlValue ≠ "" ∧ Variables.unset.getenv envKeyConfigUrl = "" ∧
    NewProviderInfo (Variables.override badUrlValue) goodUrlValue =
      NewProviderInfo Variables.unset badUrlValue ∧
    (∃ err, NewProviderInfo (Variables.override badUrlValue) goodUrlValue = .error err) ∧
    (NewProviderInfo (Variables.override goodUrlValue) badUrlValue).map
        ProviderInfo.ServiceConfig =
      .ok { Type_ := "consul", Protocol := "http", Host := "localhost", Port := 8500 } :=
  have h := NewProviderInfo_env_override (Variables.override badUrlValue) Variables.unset
    goodUrlValue badUrlValue rfl (by decide) rfl
  have h' := NewProviderInfo_env_override (Variables.override goodUrlValue) Variables.unset
    badUrlValue goodUrlValue rfl (by decide) rfl
  ⟨rfl, by decide, rfl, h.1, h.2.1 rfl, h'.2.2 rfl⟩

end Bootstrap
